import Mathlib

/-!
Shallow embedding of `src/app.py` (AWS Lambda order processor).

Modelling conventions:
* A Python/JSON value is a `JValue`; a Python `dict` with string keys is a
  `JObj`, an association list (Python dicts have unique keys, so `jlookup`
  models `dict` indexing and `in`).
* Python numbers are `Rat`; Python `bool` participates in numeric comparison
  with `True = 1`, `False = 0`, as in Python.
* A Python expression that may raise is modelled with `Option` or
  `Except` (`none` / `.error` = an exception was raised).
* External collaborators (the `json` module decoder, the EventBridge client,
  the SNS client, the wall clock) live outside this repository; they are
  parameters collected in `Env`.  The two emitter wrappers return the list
  of outbound calls they performed (their observable trace); log lines are
  not modelled.
-/

namespace OrderApp

/-- A JSON / Python value as it appears in decoded message bodies. -/
inductive JValue where
  | null
  | bool (b : Bool)
  | num (q : Rat)
  | str (s : String)
  | arr (elems : List JValue)
  | obj (fields : List (String × JValue))

/-- A Python dict with string keys, as an association list. -/
abbrev JObj := List (String × JValue)

/-- Dict lookup: `order.get(k)` / `k in order`. -/
def jlookup : JObj → String → Option JValue
  | [], _ => none
  | (k, v) :: rest, key => if k = key then some v else jlookup rest key

/-- Dict access `order.get(k, default)`. -/
def jgetD (o : JObj) (k : String) (d : JValue) : JValue :=
  (jlookup o k).getD d

/-- Python truthiness of a value (`not x` is `!truthy x`). -/
def truthy : JValue → Bool
  | JValue.null => false
  | JValue.bool b => b
  | JValue.num q => q ≠ 0
  | JValue.str s => s ≠ ""
  | JValue.arr elems => !elems.isEmpty
  | JValue.obj fields => !fields.isEmpty

/-- Python `len(x)`: defined for sized values (str, list, dict), raises
`TypeError` (`none`) otherwise. -/
def jlen : JValue → Option Nat
  | JValue.str s => some s.length
  | JValue.arr elems => some elems.length
  | JValue.obj fields => some fields.length
  | _ => none

/-- Python `x <= 0`: defined for numbers and bools (`True = 1`, `False = 0`),
raises `TypeError` (`none`) otherwise. -/
def jleZero : JValue → Option Bool
  | JValue.num q => some (decide (q ≤ 0))
  | JValue.bool b => some (!b)
  | _ => none

/-- The constant `REQUIRED_FIELDS` from `src/app.py`. -/
def REQUIRED_FIELDS : List String := ["orderId", "customerId", "items", "total"]

/-- The `for field in REQUIRED_FIELDS` loop of `validate_order`: the first
required field that is missing from the order, if any. -/
def missingField : List String → JObj → Option String
  | [], _ => none
  | f :: fs, order => if (jlookup order f).isNone then some f else missingField fs order

/-- The body of the `try` block of `validate_order` (`src/app.py` lines
174-194).  `.error ()` models an exception raised while evaluating the
checks (`len` or `<=` on a malformed value); `.ok b` is a normal return. -/
def validate_order_checks (order : JObj) : Except Unit Bool :=
  match missingField REQUIRED_FIELDS order with
  | some _ => Except.ok false
  | none =>
    let items := jgetD order "items" (JValue.arr [])
    if !truthy items then Except.ok false
    else
      match jlen items with
      | none => Except.error ()
      | some n =>
        if n = 0 then Except.ok false
        else
          let total := jgetD order "total" (JValue.num 0)
          match jleZero total with
          | none => Except.error ()
          | some le => if le then Except.ok false else Except.ok true

/-- Function `validate_order` (`src/app.py` lines 149-198): runs the checks; any
exception is caught and turned into `false`. -/
def validate_order (order : JObj) : Bool :=
  match validate_order_checks order with
  | Except.ok b => b
  | Except.error _ => false

/-- All four required keys are present (claim C1's first condition). -/
def hasAllRequired (order : JObj) : Bool :=
  REQUIRED_FIELDS.all fun f => (jlookup order f).isSome

/-- The value is a non-empty sequence, read strictly as a non-empty array:
C1's wording for the `items` condition. -/
def isNonEmptySeq : JValue → Bool
  | JValue.arr elems => !elems.isEmpty
  | _ => false

/-- The value is sized (supports `len`) with length at least 1: what the code
actually requires of `items`. -/
def isNonEmptySized (v : JValue) : Bool :=
  match jlen v with
  | some n => decide (0 < n)
  | none => false

/-- The value compares greater than 0 under Python semantics: a number `> 0`,
or the boolean `True` (which equals 1). -/
def totalPositive : JValue → Bool
  | JValue.num q => decide (0 < q)
  | JValue.bool b => b
  | _ => false

/-- Claim C1's validity predicate, read literally: all four keys present,
`items` a non-empty sequence, `total` greater than 0. -/
def spec_valid_order (order : JObj) : Bool :=
  hasAllRequired order
    && isNonEmptySeq (jgetD order "items" JValue.null)
    && totalPositive (jgetD order "total" JValue.null)

/-- C1 amended: `items` only needs to be non-empty and sized (a non-empty
string or dict also passes), not literally a sequence. -/
def amended_valid_order (order : JObj) : Bool :=
  hasAllRequired order
    && isNonEmptySized (jgetD order "items" JValue.null)
    && totalPositive (jgetD order "total" JValue.null)

/-- The `Detail` payload built by `send_order_event` (`src/app.py` lines
232-239); `json.dumps` of this dict is abstracted as the structured record. -/
structure EventDetail where
  orderId : JValue
  customerId : JValue
  status : String
  total : JValue
  timestamp : String
  items : JValue

/-- One EventBridge entry as built by `send_order_event`. -/
structure EventEntry where
  Source : String
  DetailType : String
  Detail : EventDetail
  EventBusName : String

/-- The notification message dict of `notify_order_status` (lines 292-298). -/
structure SnsMessage where
  orderId : JValue
  status : String
  customerId : JValue
  total : JValue
  timestamp : String

/-- One `sns.publish` call as built by `notify_order_status` (lines 301-320);
the three message attributes are recorded with their `StringValue` payloads
(`eventType` and `status` are string literals in the source, `orderId` is the
raw order value). -/
structure SnsPublishCall where
  TopicArn : String
  Subject : String
  Message : SnsMessage
  eventTypeAttr : String
  orderIdAttr : JValue
  statusAttr : String

/-- Python `str(x)` as used in the f-string for the SNS subject line.  The
rendering of numbers and containers abstracts Python's repr; no claim
depends on the subject text. -/
def pyStr : JValue → String
  | JValue.null => "None"
  | JValue.bool true => "True"
  | JValue.bool false => "False"
  | JValue.num q => toString q
  | JValue.str s => s
  | JValue.arr _ => "[...]"
  | JValue.obj _ => "\x7b...\x7d"

/-- The environment of the handler: configuration read from environment
variables (an unset `SNS_TOPIC_ARN` is the empty string, the default of
`os.environ.get`), plus the external collaborators: the `json` decoder
(`none` = `json.loads` raised), the wall clock (`datetime.utcnow().isoformat()`),
and the two AWS clients, each of which may raise (`.error`) or answer
(`FailedEntryCount` for EventBridge, `MessageId` for SNS). -/
structure Env where
  SNS_TOPIC_ARN : String
  EVENT_BUS_NAME : String
  decode : String → Option JValue
  now : String
  putEvents : EventEntry → Except String Nat
  snsPublish : SnsPublishCall → Except String String

/-- Function `send_order_event` (`src/app.py` lines 201-256), returning the list of
entries submitted to `events.put_events`.  A `KeyError` while building the
entry (missing `orderId`, `customerId` or `total`) is caught by the
`except` clause, so no call is made; once the entry is built the call is
made, and its response or exception only affects logging. -/
def send_order_event (env : Env) (order : JObj) (event_type : String) :
    List EventEntry :=
  match jlookup order "orderId", jlookup order "customerId", jlookup order "total" with
  | some oid, some cid, some tot =>
    let event_entry : EventEntry :=
      { Source := "order.service"
        DetailType := event_type
        Detail :=
          { orderId := oid
            customerId := cid
            status := "processed"
            total := tot
            timestamp := env.now
            items := jgetD order "items" (JValue.arr []) }
        EventBusName := env.EVENT_BUS_NAME }
    let _ := env.putEvents event_entry
    [event_entry]
  | _, _, _ => []

/-- Function `notify_order_status` (`src/app.py` lines 259-330), returning the list of
`sns.publish` calls performed.  An empty `SNS_TOPIC_ARN` (falsy string) skips
the publish; a `KeyError` while building the message is caught; once built,
the publish call is made and its outcome only affects logging. -/
def notify_order_status (env : Env) (order : JObj) (status : String) :
    List SnsPublishCall :=
  if env.SNS_TOPIC_ARN = "" then []
  else
    match jlookup order "orderId", jlookup order "customerId", jlookup order "total" with
    | some oid, some cid, some tot =>
      let call : SnsPublishCall :=
        { TopicArn := env.SNS_TOPIC_ARN
          Subject := "Order " ++ pyStr oid ++ " - " ++ status.toUpper
          Message :=
            { orderId := oid
              status := status
              customerId := cid
              total := tot
              timestamp := env.now }
          eventTypeAttr := "ORDER_PROCESSED"
          orderIdAttr := oid
          statusAttr := status }
      let _ := env.snsPublish call
      [call]
    | _, _, _ => []

/-- One SQS record of the inbound batch.  `messageId` and the
`ApproximateReceiveCount` attribute are read with `.get` (defaults
`"unknown"` and `"1"`), so they are `Option`; `record['body']` raises
`KeyError` when absent, so `body` is `Option` too. -/
structure SQSRecord where
  messageId : Option String
  body : Option String
  approximateReceiveCount : Option String

/-- One entry of the `batchItemFailures` list. -/
structure ItemFailure where
  itemIdentifier : String
deriving DecidableEq

/-- The value returned by `lambda_handler`: either the partial-batch-failure
dict (only key `batchItemFailures`) or the success dict
`statusCode / body = json.dumps(processed, failed)`, with the body's JSON
serialization abstracted as the two numbers. -/
inductive HandlerResult where
  | batchFailures (batchItemFailures : List ItemFailure)
  | success (statusCode : Nat) (processed : Nat) (failed : Nat)
deriving DecidableEq

/-- The identifier read `record.get('messageId', 'unknown')`. -/
def message_id (record : SQSRecord) : String :=
  record.messageId.getD "unknown"

/-- The per-record `try` block of `lambda_handler` (lines 90-123): whether
the record reaches `success_count += 1`, together with the emitter calls it
performed.  Failure cases in source order: `record['body']` missing
(`KeyError`), `json.loads` raising, `.get` on a decoded non-dict
(`AttributeError`), and `validate_order` returning false (the raised
`ValueError`); each is caught by the `except` clause. -/
def process_record (env : Env) (record : SQSRecord) :
    Bool × List EventEntry × List SnsPublishCall :=
  match record.body with
  | none => (false, [], [])
  | some b =>
    match env.decode b with
    | none => (false, [], [])
    | some (JValue.obj message_body) =>
      if validate_order message_body then
        let evs := send_order_event env message_body "ORDER_PROCESSED"
        let sns := notify_order_status env message_body "processed"
        (true, evs, sns)
      else (false, [], [])
    | some _ => (false, [], [])

/-- The record succeeds (is counted in `success_count`). -/
def record_ok (env : Env) (record : SQSRecord) : Bool :=
  (process_record env record).1

/-- The mutable state of the batch loop: the two tracking variables of
`lambda_handler`, plus the accumulated emitter traces. -/
structure BatchState where
  success_count : Nat
  failed_messages : List ItemFailure
  events_trace : List EventEntry
  sns_trace : List SnsPublishCall

/-- The loop state of `lambda_handler` before the first record. -/
def initial_state : BatchState := ⟨0, [], [], []⟩

/-- The `for record in event['Records']` loop (lines 86-123). -/
def process_batch (env : Env) : List SQSRecord → BatchState → BatchState
  | [], st => st
  | record :: rest, st =>
    let r := process_record env record
    let st2 :=
      if r.1 then
        { st with
            success_count := st.success_count + 1
            events_trace := st.events_trace ++ r.2.1
            sns_trace := st.sns_trace ++ r.2.2 }
      else
        { st with
            failed_messages :=
              st.failed_messages ++ [{ itemIdentifier := message_id record }] }
    process_batch env rest st2

/-- Function `lambda_handler` (`src/app.py` lines 43-146): run the loop, then return
the partial-failure dict when `failed_messages` is non-empty (truthy), and
the success dict otherwise. -/
def lambda_handler (env : Env) (records : List SQSRecord) : HandlerResult :=
  let st := process_batch env records initial_state
  if !st.failed_messages.isEmpty then
    HandlerResult.batchFailures st.failed_messages
  else
    HandlerResult.success 200 st.success_count 0

/-! ## Helper lemmas -/

lemma missingField_eq_none_iff (fs : List String) (order : JObj) :
    missingField fs order = none ↔ ∀ f ∈ fs, (jlookup order f).isSome := by
  induction fs with
  | nil => simp [missingField]
  | cons f fs ih =>
    cases h : jlookup order f with
    | none => simp [missingField, h]
    | some v => simp [missingField, h, ih]

lemma hasAllRequired_iff (order : JObj) :
    hasAllRequired order = true ↔ missingField REQUIRED_FIELDS order = none := by
  rw [missingField_eq_none_iff]
  simp [hasAllRequired]

lemma jgetD_of_lookup {order : JObj} {k : String} {v : JValue} (d : JValue)
    (h : jlookup order k = some v) : jgetD order k d = v := by
  simp [jgetD, h]

lemma string_length_ne_zero_iff (s : String) : s.length ≠ 0 ↔ s ≠ "" := by
  constructor
  · intro h he
    exact h (by simp [he])
  · intro h he
    apply h
    cases s with
    | mk data =>
      cases data with
      | nil => rfl
      | cons c cs => simp [String.length] at he

/-- The `total <= 0` branch of the checks, composed with the exception
handler, agrees with `totalPositive`. -/
lemma total_branch_eq (vt : JValue) :
    (match
      match jleZero vt with
      | none => Except.error ()
      | some le => if le = true then Except.ok false else Except.ok true with
    | Except.ok b => b
    | Except.error _ => (false : Bool)) = totalPositive vt := by
  cases vt with
  | num q =>
    by_cases h : q ≤ 0
    · simp [jleZero, totalPositive, h, not_lt.mpr h]
    · simp [jleZero, totalPositive, h, lt_of_not_ge h]
  | bool b => cases b <;> simp [jleZero, totalPositive]
  | null => simp [jleZero, totalPositive]
  | str s => simp [jleZero, totalPositive]
  | arr elems => simp [jleZero, totalPositive]
  | obj fields => simp [jleZero, totalPositive]

/-! ## Claim C1 -/

/-- A counterexample order for C1 as literally stated: all four keys present,
`total` positive, but `items` is a non-empty dict — not a sequence. -/
def cexC1 : JObj :=
  [("orderId", JValue.str "ORD-1"), ("customerId", JValue.str "CUST-1"),
   ("items", JValue.obj [("a", JValue.num 1)]), ("total", JValue.num 10)]

/-- C1 (counterexample): `validate_order` returns true on an order whose
`items` value is a non-empty dict, i.e. not a non-empty sequence, so the
claimed equivalence fails in the only-if direction. -/
theorem C1_counterexample :
    validate_order cexC1 = true ∧ spec_valid_order cexC1 = false := by
  constructor <;> rfl

/-- C1 (amended): `validate_order` returns true if and only if all four
required keys are present, `items` is non-empty and sized (a non-empty
array, string or dict), and `total` compares greater than 0; equivalently
the two booleans are equal on every order. -/
theorem C1_validate_order_characterization (order : JObj) :
    validate_order order = amended_valid_order order := by
  unfold validate_order validate_order_checks amended_valid_order
  cases hm : missingField REQUIRED_FIELDS order with
  | some f =>
    have ha : hasAllRequired order = false := by
      rw [Bool.eq_false_iff]
      intro hc
      rw [hasAllRequired_iff] at hc
      simp [hm] at hc
    simp [ha]
  | none =>
    have ha : hasAllRequired order = true := (hasAllRequired_iff order).mpr hm
    have hi : (jlookup order "items").isSome := by
      rw [missingField_eq_none_iff] at hm
      exact hm "items" (by simp [REQUIRED_FIELDS])
    have ht : (jlookup order "total").isSome := by
      rw [missingField_eq_none_iff] at hm
      exact hm "total" (by simp [REQUIRED_FIELDS])
    obtain ⟨vi, hvi⟩ := Option.isSome_iff_exists.mp hi
    obtain ⟨vt, hvt⟩ := Option.isSome_iff_exists.mp ht
    rw [jgetD_of_lookup (JValue.arr []) hvi, jgetD_of_lookup JValue.null hvi,
      jgetD_of_lookup (JValue.num 0) hvt, jgetD_of_lookup JValue.null hvt, ha]
    cases vi with
    | null => simp [truthy, isNonEmptySized, jlen]
    | bool b => cases b <;> simp [truthy, isNonEmptySized, jlen]
    | num q =>
      by_cases h : q = 0
      · simp [truthy, isNonEmptySized, jlen, h]
      · simp [truthy, isNonEmptySized, jlen, h, total_branch_eq vt]
    | str s =>
      by_cases h : s = ""
      · simp [truthy, isNonEmptySized, jlen, h]
      · have hl : s.length ≠ 0 := (string_length_ne_zero_iff s).mpr h
        simp [truthy, isNonEmptySized, jlen, h, hl, Nat.pos_of_ne_zero hl,
          total_branch_eq vt]
    | arr elems =>
      cases elems with
      | nil => simp [truthy, isNonEmptySized, jlen]
      | cons x xs => simp [truthy, isNonEmptySized, jlen, total_branch_eq vt]
    | obj fields =>
      cases fields with
      | nil => simp [truthy, isNonEmptySized, jlen]
      | cons x xs => simp [truthy, isNonEmptySized, jlen, total_branch_eq vt]

/-! ## Batch loop characterization -/

/-- The failures accumulated by the loop: one `itemIdentifier` entry per
failing record, in batch order. -/
def failure_list (env : Env) (records : List SQSRecord) : List ItemFailure :=
  (records.filter fun r => !record_ok env r).map
    fun r => { itemIdentifier := message_id r }

lemma length_filter_split {α : Type} (p : α → Bool) (l : List α) :
    (l.filter p).length + (l.filter fun x => !p x).length = l.length := by
  induction l with
  | nil => rfl
  | cons x xs ih =>
    by_cases h : p x <;> simp [List.filter_cons, h] <;> omega

lemma process_batch_success_count (env : Env) (records : List SQSRecord)
    (st : BatchState) :
    (process_batch env records st).success_count
      = st.success_count + (records.filter (record_ok env)).length := by
  induction records generalizing st with
  | nil => simp [process_batch]
  | cons record rest ih =>
    by_cases h : (process_record env record).1 = true
    · simp only [process_batch, h, if_true, ih]
      simp [List.filter_cons, record_ok, h]
      omega
    · simp only [process_batch, h, if_false, ih]
      simp [List.filter_cons, record_ok, h]

lemma process_batch_failed (env : Env) (records : List SQSRecord)
    (st : BatchState) :
    (process_batch env records st).failed_messages
      = st.failed_messages ++ failure_list env records := by
  induction records generalizing st with
  | nil => simp [process_batch, failure_list]
  | cons record rest ih =>
    by_cases h : (process_record env record).1 = true
    · simp only [process_batch, h, if_true, ih]
      simp [failure_list, List.filter_cons, record_ok, h]
    · simp only [process_batch, h, if_false, ih]
      simp [failure_list, List.filter_cons, record_ok, h]

lemma record_ok_of_decode_validate {env : Env} {r : SQSRecord} {b : String}
    {fields : JObj} (hb : r.body = some b)
    (hd : env.decode b = some (JValue.obj fields))
    (hv : validate_order fields = true) : record_ok env r = true := by
  simp [record_ok, process_record, hb, hd, hv]

lemma record_ok_false_of_decode_none {env : Env} {r : SQSRecord} {b : String}
    (hb : r.body = some b) (hd : env.decode b = none) :
    record_ok env r = false := by
  simp [record_ok, process_record, hb, hd]

lemma lambda_handler_of_no_failure {env : Env} {records : List SQSRecord}
    (h : ∀ r ∈ records, record_ok env r = true) :
    lambda_handler env records
      = HandlerResult.success 200 records.length 0 := by
  have hfilter : records.filter (record_ok env) = records :=
    List.filter_eq_self.mpr h
  have hnone : records.filter (fun r => !record_ok env r) = [] := by
    rw [List.filter_eq_nil_iff]
    intro r hr
    simp [h r hr]
  unfold lambda_handler
  simp only [process_batch_failed, process_batch_success_count]
  simp [initial_state, failure_list, hnone, hfilter]

lemma lambda_handler_of_failure {env : Env} {records : List SQSRecord}
    {r : SQSRecord} (hr : r ∈ records) (h : record_ok env r = false) :
    lambda_handler env records
      = HandlerResult.batchFailures (failure_list env records) := by
  have hmem : r ∈ records.filter fun x => !record_ok env x := by
    rw [List.mem_filter]
    exact ⟨hr, by simp [h]⟩
  have hne : failure_list env records ≠ [] := by
    intro hc
    rw [failure_list, List.map_eq_nil_iff] at hc
    rw [hc] at hmem
    exact (List.not_mem_nil r) hmem
  unfold lambda_handler
  simp only [process_batch_failed]
  simp [initial_state, List.isEmpty_iff, hne]

/-! ## Claim C2 -/

/-- C2: if every record's body is present, decodes to a dict, and that dict
passes validation, the handler returns the success dict
`statusCode 200, processed = batch size, failed = 0` — the
`batchFailures` constructor (the only way a `batchItemFailures` key is
emitted) is not used. -/
theorem C2_all_valid_batch (env : Env) (records : List SQSRecord)
    (h : ∀ r ∈ records, ∃ b fields, r.body = some b
      ∧ env.decode b = some (JValue.obj fields) ∧ validate_order fields = true) :
    lambda_handler env records = HandlerResult.success 200 records.length 0 := by
  apply lambda_handler_of_no_failure
  intro r hr
  obtain ⟨b, fields, hb, hd, hv⟩ := h r hr
  exact record_ok_of_decode_validate hb hd hv

/-! ## Claim C3 -/

/-- C3: if some record fails (its body is missing, fails to decode, decodes
to a non-dict, or fails validation), the handler returns the
partial-failure dict whose `batchItemFailures` entries are exactly the
`itemIdentifier`s of the failing records, in order, and no others; the
loop's success count is exactly the number of succeeding records, so it
excludes every failing one. -/
theorem C3_partial_failure_batch (env : Env) (records : List SQSRecord)
    (h : ∃ r ∈ records, record_ok env r = false) :
    lambda_handler env records
        = HandlerResult.batchFailures (failure_list env records)
      ∧ (process_batch env records initial_state).success_count
        = (records.filter (record_ok env)).length := by
  obtain ⟨r, hr, hfail⟩ := h
  refine ⟨lambda_handler_of_failure hr hfail, ?_⟩
  rw [process_batch_success_count]
  simp [initial_state]

/-! ## Claim C5 -/

/-- C5: a record whose body does not decode as JSON is classified failed,
its identifier appears among the returned `batchItemFailures`, and the
rest of the batch is still processed: the result is exactly the failure
entries of all failing records (and the decode exception never escapes the
handler, which is total by construction). -/
theorem C5_decode_failure_recorded (env : Env) (records : List SQSRecord)
    (r : SQSRecord) (b : String) (hr : r ∈ records) (hb : r.body = some b)
    (hd : env.decode b = none) :
    ({ itemIdentifier := message_id r } : ItemFailure)
        ∈ failure_list env records
      ∧ lambda_handler env records
        = HandlerResult.batchFailures (failure_list env records) := by
  have hfail : record_ok env r = false := record_ok_false_of_decode_none hb hd
  constructor
  · rw [failure_list]
    apply List.mem_map_of_mem
    rw [List.mem_filter]
    exact ⟨hr, by simp [hfail]⟩
  · exact lambda_handler_of_failure hr hfail

/-! ## Claim C10 -/

/-- C10: every record is classified exactly once — after the loop, the
success count plus the number of failure entries equals the number of
records in the batch. -/
theorem C10_complete_classification (env : Env) (records : List SQSRecord) :
    (process_batch env records initial_state).success_count
        + (process_batch env records initial_state).failed_messages.length
      = records.length := by
  rw [process_batch_success_count, process_batch_failed]
  simp [initial_state, failure_list]
  exact length_filter_split (record_ok env) records

/-! ## Oracle independence lemmas -/

lemma record_ok_env_update (env : Env) (pe : EventEntry → Except String Nat)
    (sp : SnsPublishCall → Except String String) (r : SQSRecord) :
    record_ok { env with putEvents := pe, snsPublish := sp } r
      = record_ok env r := by
  cases hb : r.body with
  | none => simp [record_ok, process_record, hb]
  | some b =>
    cases hd : env.decode b with
    | none => simp [record_ok, process_record, hb, hd]
    | some v =>
      cases v with
      | obj fields =>
        by_cases hv : validate_order fields = true <;>
          simp [record_ok, process_record, hb, hd, hv]
      | null => simp [record_ok, process_record, hb, hd]
      | bool x => simp [record_ok, process_record, hb, hd]
      | num q => simp [record_ok, process_record, hb, hd]
      | str s => simp [record_ok, process_record, hb, hd]
      | arr elems => simp [record_ok, process_record, hb, hd]

lemma lambda_handler_congr {env env2 : Env} (records : List SQSRecord)
    (h : ∀ r, record_ok env r = record_ok env2 r) :
    lambda_handler env records = lambda_handler env2 records := by
  have hflt : records.filter (record_ok env) = records.filter (record_ok env2) :=
    List.filter_congr fun r _ => h r
  have hfail : failure_list env records = failure_list env2 records := by
    unfold failure_list
    rw [List.filter_congr fun r _ => by rw [h r]]
  unfold lambda_handler
  simp only [process_batch_failed, process_batch_success_count]
  rw [hfail, hflt]

/-! ## Claim C4 -/

/-- C4: the handler's returned value does not depend on the EventBridge and
SNS collaborators — in particular it is unchanged when either or both
raise on every call (both wrappers catch all exceptions, so nothing
propagates to `lambda_handler`) — and a record that decodes and validates
is classified successful under any collaborator behavior. -/
theorem C4_emitter_failures_do_not_reclassify (env : Env)
    (pe pe2 : EventEntry → Except String Nat)
    (sp sp2 : SnsPublishCall → Except String String)
    (records : List SQSRecord) (r : SQSRecord) (b : String) (fields : JObj)
    (_hr : r ∈ records) (hb : r.body = some b)
    (hd : env.decode b = some (JValue.obj fields))
    (hv : validate_order fields = true) :
    lambda_handler { env with putEvents := pe, snsPublish := sp } records
        = lambda_handler { env with putEvents := pe2, snsPublish := sp2 } records
      ∧ record_ok { env with putEvents := pe, snsPublish := sp } r = true
      ∧ record_ok { env with putEvents := pe2, snsPublish := sp2 } r = true := by
  have hok : record_ok env r = true := record_ok_of_decode_validate hb hd hv
  refine ⟨?_, ?_, ?_⟩
  · exact lambda_handler_congr records
      (fun x => (record_ok_env_update env pe sp x).trans
        (record_ok_env_update env pe2 sp2 x).symm)
  · rw [record_ok_env_update]
    exact hok
  · rw [record_ok_env_update]
    exact hok

/-! ## Claim C6 -/

/-- C6: when the configured SNS topic ARN is the empty string (the value
`os.environ.get` yields when the variable is unset, and the falsy case of
`if not SNS_TOPIC_ARN`), `notify_order_status` performs no publish call and
returns normally, for every order and status. -/
theorem C6_no_topic_no_publish (env : Env) (order : JObj) (status : String)
    (h : env.SNS_TOPIC_ARN = "") :
    notify_order_status env order status = [] := by
  simp [notify_order_status, h]

/-! ## Claim C7 -/

/-- C7: `validate_order` is total (it is a Lean function into `Bool`), and
whenever the check body raises — modelled by `validate_order_checks`
returning `.error` — the exception is caught and the function returns
`false` instead of propagating. -/
theorem C7_validation_never_raises (order : JObj) (e : Unit)
    (h : validate_order_checks order = Except.error e) :
    validate_order order = false := by
  simp [validate_order, h]

/-! ## Claim C8 -/

lemma validate_true_missing_none {order : JObj}
    (h : validate_order order = true) :
    missingField REQUIRED_FIELDS order = none := by
  cases hm : missingField REQUIRED_FIELDS order with
  | none => rfl
  | some f => simp [validate_order, validate_order_checks, hm] at h

/-- C8: on a validated order, `send_order_event` submits exactly one entry
to the event bus, with `Source = "order.service"`, `DetailType` the given
label, `EventBusName` the configured bus name, and a detail payload with
the order's `orderId`, `customerId`, `status = "processed"`, `total`,
`items`, and the current clock's ISO-8601 timestamp (`env.now`). -/
theorem C8_event_entry_construction (env : Env) (order : JObj)
    (event_type : String) (h : validate_order order = true) :
    ∃ oid cid tot, jlookup order "orderId" = some oid
      ∧ jlookup order "customerId" = some cid
      ∧ jlookup order "total" = some tot
      ∧ send_order_event env order event_type =
          [{ Source := "order.service"
             DetailType := event_type
             Detail :=
               { orderId := oid
                 customerId := cid
                 status := "processed"
                 total := tot
                 timestamp := env.now
                 items := jgetD order "items" (JValue.arr []) }
             EventBusName := env.EVENT_BUS_NAME }] := by
  have hm := validate_true_missing_none h
  rw [missingField_eq_none_iff] at hm
  obtain ⟨oid, ho⟩ :=
    Option.isSome_iff_exists.mp (hm "orderId" (by simp [REQUIRED_FIELDS]))
  obtain ⟨cid, hc⟩ :=
    Option.isSome_iff_exists.mp (hm "customerId" (by simp [REQUIRED_FIELDS]))
  obtain ⟨tot, ht⟩ :=
    Option.isSome_iff_exists.mp (hm "total" (by simp [REQUIRED_FIELDS]))
  exact ⟨oid, cid, tot, ho, hc, ht, by simp [send_order_event, ho, hc, ht]⟩

/-! ## Claim C9 -/

lemma record_ok_body_congr (env : Env) {a b : SQSRecord}
    (h : a.body = b.body) : record_ok env a = record_ok env b := by
  rw [record_ok, record_ok, process_record, process_record, h]

lemma batch_data_congr (env : Env) {records1 records2 : List SQSRecord}
    (h : List.Forall₂
      (fun a b => a.messageId = b.messageId ∧ a.body = b.body)
      records1 records2) :
    failure_list env records1 = failure_list env records2
      ∧ (records1.filter (record_ok env)).length
        = (records2.filter (record_ok env)).length := by
  induction h with
  | nil => exact ⟨rfl, rfl⟩
  | cons hab htail ih =>
    rename_i a b l1 l2
    obtain ⟨hid, hbody⟩ := hab
    have hok := record_ok_body_congr env hbody
    have hmid : message_id a = message_id b := by
      rw [message_id, message_id, hid]
    by_cases hb : record_ok env b = true
    · have ha : record_ok env a = true := hok.trans hb
      refine ⟨?_, ?_⟩
      · unfold failure_list at ih ⊢
        simp [List.filter_cons, ha, hb, ih.1]
      · simp [List.filter_cons, ha, hb, ih.2]
    · have hbf : record_ok env b = false := Bool.eq_false_iff.mpr hb
      have ha : record_ok env a = false := hok.trans hbf
      refine ⟨?_, ?_⟩
      · unfold failure_list at ih ⊢
        simp [List.filter_cons, ha, hbf, hmid, ih.1]
      · simp [List.filter_cons, ha, hbf, ih.2]

/-- C9: the handler's result is independent of the
`ApproximateReceiveCount` attribute — two batches that agree pointwise on
`messageId` and `body` but may differ arbitrarily in the receive count
produce the same returned value (the counter is only logged). -/
theorem C9_receive_count_does_not_gate (env : Env)
    (records1 records2 : List SQSRecord)
    (h : List.Forall₂
      (fun a b => a.messageId = b.messageId ∧ a.body = b.body)
      records1 records2) :
    lambda_handler env records1 = lambda_handler env records2 := by
  obtain ⟨hfail, hcnt⟩ := batch_data_congr env h
  unfold lambda_handler
  simp only [process_batch_failed, process_batch_success_count]
  rw [hfail, hcnt]

/-! ## Concrete inputs for the witnesses -/

/-- A concrete order that passes validation (the spec's worked example, with
integer amounts). -/
def validOrderFields : JObj :=
  [("orderId", JValue.str "ORD-001"), ("customerId", JValue.str "CUST-123"),
   ("items", JValue.arr [JValue.obj
      [("productId", JValue.str "PROD-1"), ("quantity", JValue.num 2),
       ("price", JValue.num 10)]]),
   ("total", JValue.num 20)]

/-- A concrete environment: the decoder recognizes the body `"good"` and
raises on everything else; both AWS clients answer normally. -/
def testEnv : Env :=
  { SNS_TOPIC_ARN := "arn:aws:sns:topic"
    EVENT_BUS_NAME := "OrderEventBus"
    decode := fun s =>
      if s = "good" then some (JValue.obj validOrderFields) else none
    now := "2026-01-01T00:00:00"
    putEvents := fun _ => Except.ok 0
    snsPublish := fun _ => Except.ok "mid-1" }

/-- A one-record batch whose message decodes and validates. -/
def goodBatch : List SQSRecord :=
  [{ messageId := some "msg-1", body := some "good",
     approximateReceiveCount := some "1" }]

/-- A one-record batch whose body fails to decode. -/
def badBatch : List SQSRecord :=
  [{ messageId := some "msg-2", body := some "bad",
     approximateReceiveCount := some "1" }]

/-- The good batch with a different `ApproximateReceiveCount`. -/
def goodBatchRetry : List SQSRecord :=
  [{ messageId := some "msg-1", body := some "good",
     approximateReceiveCount := some "7" }]

/-! ## Witnesses -/

/-- C2 at a concrete all-valid batch: one record, success dict `200 / 1 / 0`. -/
theorem C2_witness :
    lambda_handler testEnv goodBatch = HandlerResult.success 200 1 0 :=
  C2_all_valid_batch testEnv goodBatch (by
    intro r hr
    rw [goodBatch, List.mem_singleton] at hr
    subst hr
    exact ⟨"good", validOrderFields, rfl, by rfl, by decide⟩)

/-- C3 at a concrete batch with one failing record. -/
theorem C3_witness :
    lambda_handler testEnv badBatch
        = HandlerResult.batchFailures (failure_list testEnv badBatch)
      ∧ (process_batch testEnv badBatch initial_state).success_count
        = (badBatch.filter (record_ok testEnv)).length :=
  C3_partial_failure_batch testEnv badBatch
    ⟨{ messageId := some "msg-2", body := some "bad",
       approximateReceiveCount := some "1" },
     by rw [badBatch, List.mem_singleton], by decide⟩

/-- C4 at a concrete batch, with one collaborator pair that always raises
and one that always answers: same handler result, and the valid record is
classified successful under both. -/
theorem C4_witness :
    lambda_handler
        { testEnv with putEvents := fun _ => Except.error "EventBridge down"
                       snsPublish := fun _ => Except.error "SNS down" }
        goodBatch
      = lambda_handler
        { testEnv with putEvents := fun _ => Except.ok 0
                       snsPublish := fun _ => Except.ok "mid-2" }
        goodBatch
    ∧ record_ok
        { testEnv with putEvents := fun _ => Except.error "EventBridge down"
                       snsPublish := fun _ => Except.error "SNS down" }
        { messageId := some "msg-1", body := some "good",
          approximateReceiveCount := some "1" } = true
    ∧ record_ok
        { testEnv with putEvents := fun _ => Except.ok 0
                       snsPublish := fun _ => Except.ok "mid-2" }
        { messageId := some "msg-1", body := some "good",
          approximateReceiveCount := some "1" } = true :=
  C4_emitter_failures_do_not_reclassify testEnv
    (fun _ => Except.error "EventBridge down") (fun _ => Except.ok 0)
    (fun _ => Except.error "SNS down") (fun _ => Except.ok "mid-2")
    goodBatch
    { messageId := some "msg-1", body := some "good",
      approximateReceiveCount := some "1" }
    "good" validOrderFields
    (by rw [goodBatch, List.mem_singleton]) (by rfl) (by rfl) (by decide)

/-- C5 at a concrete batch: the undecodable record's identifier is among the
returned failures. -/
theorem C5_witness :
    ({ itemIdentifier := "msg-2" } : ItemFailure)
        ∈ failure_list testEnv badBatch
      ∧ lambda_handler testEnv badBatch
        = HandlerResult.batchFailures (failure_list testEnv badBatch) :=
  C5_decode_failure_recorded testEnv badBatch
    { messageId := some "msg-2", body := some "bad",
      approximateReceiveCount := some "1" }
    "bad" (by rw [badBatch, List.mem_singleton]) rfl (by rfl)

/-- C6 at a concrete environment with an unset (empty) topic ARN. -/
theorem C6_witness :
    notify_order_status { testEnv with SNS_TOPIC_ARN := "" }
      validOrderFields "processed" = [] :=
  C6_no_topic_no_publish { testEnv with SNS_TOPIC_ARN := "" }
    validOrderFields "processed" rfl

/-- An order whose `total` is a string: comparing it to 0 raises `TypeError`
in the source, so the checks end in `.error`. -/
def malformedTotalOrder : JObj :=
  [("orderId", JValue.str "ORD-3"), ("customerId", JValue.str "CUST-3"),
   ("items", JValue.arr [JValue.num 1]), ("total", JValue.str "twenty")]

/-- C7 at a concrete order with a malformed `total`: the checks raise and
`validate_order` returns false. -/
theorem C7_witness : validate_order malformedTotalOrder = false :=
  C7_validation_never_raises malformedTotalOrder () (by rfl)

/-- C8 at the concrete valid order and environment: the exact single entry
submitted to the event bus. -/
theorem C8_witness :
    send_order_event testEnv validOrderFields "ORDER_PROCESSED"
      = [{ Source := "order.service"
           DetailType := "ORDER_PROCESSED"
           Detail :=
             { orderId := JValue.str "ORD-001"
               customerId := JValue.str "CUST-123"
               status := "processed"
               total := JValue.num 20
               timestamp := "2026-01-01T00:00:00"
               items := JValue.arr [JValue.obj
                 [("productId", JValue.str "PROD-1"),
                  ("quantity", JValue.num 2), ("price", JValue.num 10)]] }
           EventBusName := "OrderEventBus" }] := by
  obtain ⟨oid, cid, tot, ho, hc, ht, he⟩ :=
    C8_event_entry_construction testEnv validOrderFields "ORDER_PROCESSED"
      (by decide)
  have h1 : oid = JValue.str "ORD-001" := by
    have h := ho.symm.trans (rfl : jlookup validOrderFields "orderId"
      = some (JValue.str "ORD-001"))
    exact Option.some.inj h
  have h2 : cid = JValue.str "CUST-123" := by
    have h := hc.symm.trans (rfl : jlookup validOrderFields "customerId"
      = some (JValue.str "CUST-123"))
    exact Option.some.inj h
  have h3 : tot = JValue.num 20 := by
    have h := ht.symm.trans (rfl : jlookup validOrderFields "total"
      = some (JValue.num 20))
    exact Option.some.inj h
  rw [h1, h2, h3] at he
  exact he

/-- C9 at two concrete batches that differ only in the receive count. -/
theorem C9_witness :
    lambda_handler testEnv goodBatch = lambda_handler testEnv goodBatchRetry :=
  C9_receive_count_does_not_gate testEnv goodBatch goodBatchRetry
    (List.Forall₂.cons ⟨rfl, rfl⟩ List.Forall₂.nil)

end OrderApp
